import Mathlib

/-!
Shallow embedding of the UART framing protocol engine of
`_RPI_SIDE/core/uart_manager.py`: the message-type registry, the frame
codec (`_format_uart` / `_parse_frame`), the byte-stream parser state
machine (`_process_rx_byte` / `io_bytes_received`), the dispatcher
(`_dispatch_callback`) and the outbound command API (`set_tool_id`,
`set_tool_name`, `follow_mode_enable`, `is_rfid_valid`).

Python bytes are modelled as `List Nat` (one entry per byte), Python
strings as `List Char`, the mutable `UartInterface` object as an explicit
state record threaded through each call, and a raised Python exception as
an `Option PyError` / `Except PyError` result.  Because a Python method
mutates `self` even when it subsequently raises, stateful operations
return the post-mutation state *together with* the optional raised error.
Callback invocations (`cb_*`), logger warnings and `io_send_uart`
attempts are recorded as traces inside the state record: they are the
observable effects of the engine.
-/

namespace Uart

/-- Module-level constant `_START_BYTE = b'\x8A'` (as a byte value). -/
def START_BYTE : Nat := 0x8A

/-- Module-level constant `_STOP_BYTE = b'\x51'` (as a byte value). -/
def STOP_BYTE : Nat := 0x51

/-- `_UART_HEADER_LENGTH = 2`. -/
def UART_HEADER_LENGTH : Nat := 2

/-- `_UART_FOOTER_LENGTH = 1`. -/
def UART_FOOTER_LENGTH : Nat := 1

/-- `_UART_MIN_FRAME_LENGTH = _UART_HEADER_LENGTH + _UART_FOOTER_LENGTH`. -/
def UART_MIN_FRAME_LENGTH : Nat := UART_HEADER_LENGTH + UART_FOOTER_LENGTH

/-- `_UART_MAX_DATA_LENGTH = 16`. -/
def UART_MAX_DATA_LENGTH : Nat := 16

/-- `MAX_TOOL_ID = 0x7` (a Python int; commands receive Python ints,
so we keep it in `Int`). -/
def MAX_TOOL_ID : Int := 0x7

/-- The exceptions the driver can raise.  `payloadTooLong`, `invalidData`,
`uartError`, `unknownMessageType`, `invalidFrameStart`,
`invalidPayloadLength`, `invalidFrameEnd` and `incompleteFrame` are the
`ScreenError` subclasses defined in the module; `unicodeEncodeError` and
`indexError` model the builtin Python exceptions that `str.encode("ascii")`
and an out-of-range `data[0]` can raise (they are NOT `ScreenError`s). -/
inductive PyError
  | payloadTooLong (given : Nat)
  | invalidData
  | uartError
  | unknownMessageType
  | invalidFrameStart
  | invalidPayloadLength
  | invalidFrameEnd
  | incompleteFrame
  | unicodeEncodeError
  | indexError
deriving DecidableEq, Repr

/-- Whether an exception belongs to the `ScreenError` hierarchy of the
module (everything the module defines derives from `ScreenError`). -/
def PyError.isScreenError : PyError → Bool
  | .unicodeEncodeError => false
  | .indexError => false
  | _ => true

/-- `class ArmState(IntEnum)`. -/
inductive ArmState
  | IDLE
  | READY
  | CLOSED
  | DISPLAY
deriving DecidableEq, Repr

/-- The `IntEnum` value of each `ArmState` member. -/
def ArmState.value : ArmState → Nat
  | .IDLE => 0x01
  | .READY => 0x02
  | .CLOSED => 0x04
  | .DISPLAY => 0x08

/-- `ArmState(n)`: resolve an int to the enum member with that value,
`none` standing for the `ValueError` Python raises on an undefined value. -/
def ArmState.ofValue (n : Nat) : Option ArmState :=
  if n = 0x01 then some .IDLE
  else if n = 0x02 then some .READY
  else if n = 0x04 then some .CLOSED
  else if n = 0x08 then some .DISPLAY
  else none

/-- `class MessageType(Enum)`: the message-type registry. -/
inductive MessageType
  | TOOL_ID
  | TOOL_NAME
  | FOLLOW_MODE_ENABLE
  | RFID_VALID
  | BATTERY_LEVEL
  | ARM_STATUS
  | RFID_VALUE
deriving DecidableEq, Repr

/-- The `code` field of each registry entry. -/
def MessageType.code : MessageType → Nat
  | .TOOL_ID => 0x01
  | .TOOL_NAME => 0x02
  | .FOLLOW_MODE_ENABLE => 0x04
  | .RFID_VALID => 0x08
  | .BATTERY_LEVEL => 0x81
  | .ARM_STATUS => 0x82
  | .RFID_VALUE => 0x84

/-- The `from_stm32` field of each registry entry. -/
def MessageType.from_stm32 : MessageType → Bool
  | .TOOL_ID => false
  | .TOOL_NAME => false
  | .FOLLOW_MODE_ENABLE => false
  | .RFID_VALID => false
  | .BATTERY_LEVEL => true
  | .ARM_STATUS => true
  | .RFID_VALUE => true

/-- The `data_len` field of each registry entry. -/
def MessageType.data_len : MessageType → Nat
  | .TOOL_ID => 1
  | .TOOL_NAME => 16
  | .FOLLOW_MODE_ENABLE => 1
  | .RFID_VALID => 1
  | .BATTERY_LEVEL => 1
  | .ARM_STATUS => 1
  | .RFID_VALUE => 4

/-- `MessageType.from_bytes`: scan the registry for the entry whose code
equals the byte; `none` stands for the `ValueError` raised when no entry
matches.  (Codes are pairwise distinct, so first-match equals any-match.) -/
def MessageType.from_bytes (b : Nat) : Option MessageType :=
  if b = 0x01 then some .TOOL_ID
  else if b = 0x02 then some .TOOL_NAME
  else if b = 0x04 then some .FOLLOW_MODE_ENABLE
  else if b = 0x08 then some .RFID_VALID
  else if b = 0x81 then some .BATTERY_LEVEL
  else if b = 0x82 then some .ARM_STATUS
  else if b = 0x84 then some .RFID_VALUE
  else none

/-- `UartInterface._ParserState`. -/
inductive ParserState
  | IDLE
  | READING_HEADER
  | READING_DATA
  | READING_FOOTER
deriving DecidableEq, Repr

/-- A recorded invocation of one of the abstract `cb_*` handler methods. -/
inductive Call
  | rfid (hex : List Char)
  | armState (s : ArmState)
  | battery (level : Nat)
deriving DecidableEq, Repr

/-- The state of a `UartInterface` object plus the observable traces of
its effects: `rx_buff`, `bytes_left` and `parser_state` are the object's
fields (a Python `int` can be negative, hence `Int` for `bytes_left`);
`calls` records the `cb_*` callback invocations, `warns` the bytes passed
to `logger.warning` for unknown message types, and `sent` the frames
handed to `io_send_uart`. -/
structure St where
  rx_buff : List Nat
  bytes_left : Int
  parser_state : ParserState
  calls : List Call
  warns : List Nat
  sent : List (List Nat)
deriving DecidableEq, Repr

/-- `UartInterface.__init__`: empty buffer, zero counter, `IDLE` state
(and empty effect traces). -/
def initSt : St :=
  { rx_buff := [], bytes_left := 0, parser_state := .IDLE,
    calls := [], warns := [], sent := [] }

/-- `bytes.hex()` digit table (lowercase). -/
def hexDigit (n : Nat) : Char :=
  if n = 0 then '0' else if n = 1 then '1' else if n = 2 then '2'
  else if n = 3 then '3' else if n = 4 then '4' else if n = 5 then '5'
  else if n = 6 then '6' else if n = 7 then '7' else if n = 8 then '8'
  else if n = 9 then '9' else if n = 10 then 'a' else if n = 11 then 'b'
  else if n = 12 then 'c' else if n = 13 then 'd' else if n = 14 then 'e'
  else 'f'

/-- `bytes.hex()`: two lowercase hex digits per byte. -/
def bytesToHex (bs : List Nat) : List Char :=
  (bs.map (fun b => [hexDigit (b / 16 % 16), hexDigit (b % 16)])).flatten

/-- `UartInterface._dispatch_callback(msg_type, data)`.  Returns the
post-state and the raised exception, if any.  `data[0]` is modelled by
`data.get? 0`, an empty list raising `IndexError`; an undefined arm-state
byte raises `InvalidDataError`. -/
def dispatch_callback (st : St) (msg_type : MessageType) (data : List Nat) :
    St × Option PyError :=
  if msg_type.from_stm32 = false then (st, none)
  else if msg_type = .RFID_VALUE then
    ({ st with calls := st.calls ++ [.rfid (bytesToHex data)] }, none)
  else if msg_type = .ARM_STATUS then
    match data.get? 0 with
    | none => (st, some .indexError)
    | some b =>
      match ArmState.ofValue b with
      | none => (st, some .invalidData)
      | some s => ({ st with calls := st.calls ++ [.armState s] }, none)
  else if msg_type = .BATTERY_LEVEL then
    match data.get? 0 with
    | none => (st, some .indexError)
    | some b => ({ st with calls := st.calls ++ [.battery b] }, none)
  else (st, none)

/-- `UartInterface._parse_frame(frame)`.  The Python method returns
`None`; here the `Except` value additionally exposes, on success, the
`(msg_type, data)` pair the method resolved and handed to
`_dispatch_callback` (its only observable outcome).  The error cases are
exactly the `raise` statements of the source, in source order;
`frame[_UART_HEADER_LENGTH : -_UART_FOOTER_LENGTH]` is
`(frame.drop 2).dropLast`. -/
def parse_frame (st : St) (frame : List Nat) :
    St × Except PyError (MessageType × List Nat) :=
  if frame.length < UART_MIN_FRAME_LENGTH then (st, .error .incompleteFrame)
  else if frame.headD 0 ≠ START_BYTE then (st, .error .invalidFrameStart)
  else if frame.getLastD 0 ≠ STOP_BYTE then (st, .error .invalidFrameEnd)
  else
    match MessageType.from_bytes (frame.getD 1 0) with
    | none => (st, .error .unknownMessageType)
    | some msg_type =>
      let data := (frame.drop UART_HEADER_LENGTH).dropLast
      if msg_type.data_len ≠ data.length then (st, .error .invalidPayloadLength)
      else
        match dispatch_callback st msg_type data with
        | (st2, none) => (st2, .ok (msg_type, data))
        | (st2, some e) => (st2, .error e)

/-- `UartInterface._store_rx_byte(byte)`: append to `_rx_buff`,
decrement `_bytes_left`. -/
def store_rx_byte (st : St) (b : Nat) : St :=
  { st with rx_buff := st.rx_buff ++ [b], bytes_left := st.bytes_left - 1 }

/-- `UartInterface._process_rx_byte(byte)`: one step of the stream-parser
state machine.  Field mutations performed before a `raise` persist, so
the post-state is returned alongside the optional raised exception. -/
def process_rx_byte (st : St) (b : Nat) : St × Option PyError :=
  let st := if st.bytes_left > 0 then store_rx_byte st b else st
  match st.parser_state with
  | .IDLE =>
    if b = START_BYTE then
      let st := { st with bytes_left := (UART_HEADER_LENGTH : Int),
                          parser_state := .READING_HEADER }
      (store_rx_byte st b, none)
    else (st, none)
  | .READING_HEADER =>
    if st.bytes_left = 0 then
      let st :=
        match MessageType.from_bytes b with
        | some t => { st with bytes_left := (t.data_len : Int) }
        | none => { st with warns := st.warns ++ [b], bytes_left := 0 }
      ({ st with parser_state := .READING_DATA }, none)
    else (st, none)
  | .READING_DATA =>
    if st.bytes_left = 0 then
      ({ st with bytes_left := (UART_FOOTER_LENGTH : Int),
                 parser_state := .READING_FOOTER }, none)
    else (st, none)
  | .READING_FOOTER =>
    if st.bytes_left = 0 then
      let st := { st with parser_state := .IDLE }
      match parse_frame st st.rx_buff with
      | (st2, .ok _) => (st2, none)
      | (st2, .error e) => (st2, some e)
    else (st, none)

/-- `UartInterface.io_bytes_received(rx_bytes)`: feed the bytes one by
one; an exception raised by `_process_rx_byte` aborts the loop and
propagates, the mutations already made remaining in place. -/
def io_bytes_received (st : St) (bs : List Nat) : St × Option PyError :=
  match bs with
  | [] => (st, none)
  | b :: rest =>
    match process_rx_byte st b with
    | (st2, none) => io_bytes_received st2 rest
    | (st2, some e) => (st2, some e)

/-- `UartInterface._format_uart(msg_type, data)`.  The source's
`msg_type not in MessageType` test is always false for an enum member and
is omitted. -/
def format_uart (msg_type : MessageType) (data : List Nat) :
    Except PyError (List Nat) :=
  if data.length > UART_MAX_DATA_LENGTH then .error (.payloadTooLong data.length)
  else if data.length ≠ msg_type.data_len then .error .invalidData
  else .ok ([START_BYTE, msg_type.code] ++ data ++ [STOP_BYTE])

/-- Shared tail of the four outbound commands: call `io_send_uart(frame)`
(recorded in `sent`; `sendOk` is the abstract transmit capability's
return value) and raise `UartError` when it reports failure. -/
def send_frame (st : St) (sendOk : Bool) (frame : List Nat) : St × Option PyError :=
  let st := { st with sent := st.sent ++ [frame] }
  if sendOk then (st, none) else (st, some .uartError)

/-- `UartInterface.set_tool_id(tool)`. -/
def set_tool_id (st : St) (sendOk : Bool) (tool : Int) : St × Option PyError :=
  if ¬ (0 < tool ∧ tool < MAX_TOOL_ID) then (st, some .invalidData)
  else
    match format_uart .TOOL_ID [tool.toNat] with
    | .error e => (st, some e)
    | .ok frame => send_frame st sendOk frame

/-- Python's `str.isalnum` on a single character, modelled for code
points up to `U+00FF` (the ASCII digits and letters plus the Latin-1
alphanumerics: `ª µ º ² ³ ¹ ¼ ½ ¾` and the letters `À`-`ÿ` except the
operators `×` and `÷`).  Code points above `U+00FF` are outside the
modelled fragment and mapped to `false`. -/
def pyIsAlnumChar (c : Char) : Bool :=
  let n := c.toNat
  (48 ≤ n ∧ n ≤ 57) ∨ (65 ≤ n ∧ n ≤ 90) ∨ (97 ≤ n ∧ n ≤ 122) ∨
    n = 0xAA ∨ n = 0xB5 ∨ n = 0xBA ∨ n = 0xB2 ∨ n = 0xB3 ∨ n = 0xB9 ∨
    n = 0xBC ∨ n = 0xBD ∨ n = 0xBE ∨
    (0xC0 ≤ n ∧ n ≤ 0xFF ∧ n ≠ 0xD7 ∧ n ≠ 0xF7)

/-- Python's `str.isalnum`: non-empty and every character alphanumeric. -/
def pyIsAlnum (s : List Char) : Bool :=
  s.length > 0 && s.all pyIsAlnumChar

/-- Python's `str.ljust(width, fill)`: pad on the right up to `width`;
a string already at least `width` long is returned unchanged (no
truncation). -/
def pyLjust (s : List Char) (width : Nat) (fill : Char) : List Char :=
  if width ≤ s.length then s else s ++ List.replicate (width - s.length) fill

/-- Python's `str.encode("ascii")`: the code points as bytes, raising
`UnicodeEncodeError` when any code point is ≥ 128. -/
def encodeAscii (s : List Char) : Except PyError (List Nat) :=
  if s.all (fun c => c.toNat < 128) then .ok (s.map Char.toNat)
  else .error .unicodeEncodeError

/-- `UartInterface.set_tool_name(name)`. -/
def set_tool_name (st : St) (sendOk : Bool) (name : List Char) :
    St × Option PyError :=
  if ¬ pyIsAlnum name then (st, some .invalidData)
  else
    match encodeAscii (pyLjust name 16 ' ') with
    | .error e => (st, some e)
    | .ok data =>
      match format_uart .TOOL_NAME data with
      | .error e => (st, some e)
      | .ok frame => send_frame st sendOk frame

/-- `UartInterface.is_rfid_valid(valid)`. -/
def is_rfid_valid (st : St) (sendOk : Bool) (valid : Bool) : St × Option PyError :=
  match format_uart .RFID_VALID [if valid then 1 else 0] with
  | .error e => (st, some e)
  | .ok frame => send_frame st sendOk frame

/-- `UartInterface.follow_mode_enable(enabled)`. -/
def follow_mode_enable (st : St) (sendOk : Bool) (enabled : Bool) :
    St × Option PyError :=
  match format_uart .FOLLOW_MODE_ENABLE [if enabled then 1 else 0] with
  | .error e => (st, some e)
  | .ok frame => send_frame st sendOk frame

/-! ### Helper lemmas shared by the claim theorems -/

/-- `_dispatch_callback` never touches the parser-session fields
(`_rx_buff`, `_bytes_left`, `_parser_state`). -/
theorem dispatch_callback_session (st : St) (t : MessageType) (d : List Nat) :
    (dispatch_callback st t d).1.rx_buff = st.rx_buff ∧
    (dispatch_callback st t d).1.bytes_left = st.bytes_left ∧
    (dispatch_callback st t d).1.parser_state = st.parser_state := by
  cases t <;> simp only [dispatch_callback] <;>
    repeat' first
      | rfl
      | (constructor)
      | split

/-- `dispatch_callback_session`, phrased on an equation. -/
theorem dispatch_session_of_eq {st : St} {t : MessageType} {d : List Nat}
    {st2 : St} {r : Option PyError} (hd : dispatch_callback st t d = (st2, r)) :
    st2.rx_buff = st.rx_buff ∧ st2.bytes_left = st.bytes_left ∧
    st2.parser_state = st.parser_state := by
  have h := dispatch_callback_session st t d
  rw [hd] at h
  exact h

/-- `_parse_frame` never touches the parser-session fields. -/
theorem parse_frame_session (st : St) (f : List Nat) :
    (parse_frame st f).1.rx_buff = st.rx_buff ∧
    (parse_frame st f).1.bytes_left = st.bytes_left ∧
    (parse_frame st f).1.parser_state = st.parser_state := by
  simp only [parse_frame]
  repeat' first
    | rfl
    | (constructor)
    | split
  all_goals
    rename_i hd
    first
      | exact (dispatch_session_of_eq hd).1
      | exact (dispatch_session_of_eq hd).2.1
      | exact (dispatch_session_of_eq hd).2.2

/-- `parse_frame_session`, phrased on an equation. -/
theorem parse_session_of_eq {st : St} {f : List Nat} {st2 : St}
    {r : Except PyError (MessageType × List Nat)}
    (hp : parse_frame st f = (st2, r)) :
    st2.rx_buff = st.rx_buff ∧ st2.bytes_left = st.bytes_left ∧
    st2.parser_state = st.parser_state := by
  have h := parse_frame_session st f
  rw [hp] at h
  exact h

/-- A step of `_process_rx_byte` can only raise from the frame-completion
branch, where `_parser_state` has already been reset to `IDLE`. -/
theorem process_rx_byte_error_idle (st : St) (b : Nat) (e : PyError)
    (h : (process_rx_byte st b).2 = some e) :
    (process_rx_byte st b).1.parser_state = .IDLE := by
  unfold process_rx_byte at h ⊢
  set st1 := if st.bytes_left > 0 then store_rx_byte st b else st with hst1
  cases hps : st1.parser_state <;> simp only [hps] at h ⊢
  case IDLE => split at h <;> simp_all
  case READING_HEADER => split at h <;> simp_all
  case READING_DATA => split at h <;> simp_all
  case READING_FOOTER =>
    split at h
    case isTrue hz =>
      rw [if_pos hz]
      split at h <;> rename_i hp
      · simp at h
      · exact (parse_session_of_eq hp).2.2
    case isFalse hz => simp_all

/-! ### Claim theorems -/

/-- C1, counterexample: a malformed frame DOES propagate an exception out
of the byte-feed operation.  Feeding `0x8A 0x08 0x01 0x01` to a fresh
session (a `RFID_VALID` frame whose stop byte is wrong) makes
`io_bytes_received` raise `InvalidFrameEndError`, and nothing is logged. -/
theorem parse_error_escapes_byte_feed :
    (io_bytes_received initSt [0x8A, 0x08, 0x01, 0x01]).2 =
      some .invalidFrameEnd ∧
    (io_bytes_received initSt [0x8A, 0x08, 0x01, 0x01]).1.warns = [] := by
  decide

/-- C1 (amended): parse-time errors are NOT contained — they propagate out
of the byte-feed operation as exceptions (as the method's own docstring
documents) and the in-progress buffer is not discarded; however, any error
is raised only at frame completion, after `_parser_state` has already been
reset to `IDLE`, so whenever the byte-feed operation raises, the parser is
left in the `IDLE` state. -/
theorem byte_feed_error_implies_idle (st : St) (bs : List Nat)
    (h : ((io_bytes_received st bs).2).isSome = true) :
    (io_bytes_received st bs).1.parser_state = .IDLE := by
  induction bs generalizing st with
  | nil => simp [io_bytes_received] at h
  | cons b rest ih =>
    rw [io_bytes_received] at h ⊢
    rcases hp : process_rx_byte st b with ⟨st2, r⟩
    rw [hp] at h
    cases r with
    | none => exact ih st2 (by simpa using h)
    | some e =>
      have h2 := process_rx_byte_error_idle st b e (by rw [hp])
      rw [hp] at h2
      exact h2

/-- C1, witness for `byte_feed_error_implies_idle` at a concrete erroring
byte sequence. -/
theorem byte_feed_error_implies_idle_witness :
    ((io_bytes_received initSt [0x8A, 0x08, 0x02, 0x02]).2).isSome = true ∧
    (io_bytes_received initSt [0x8A, 0x08, 0x02, 0x02]).1.parser_state = .IDLE :=
  ⟨by decide,
   byte_feed_error_implies_idle initSt [0x8A, 0x08, 0x02, 0x02] (by decide)⟩

/-- C2, code bug: after a completed frame attempt the parser state is
`IDLE`, but the accumulation buffer is NEVER cleared (no code path resets
`_rx_buff`), so it is not empty, and a start byte matched in `IDLE` is
appended to the stale buffer rather than starting a fresh one.  A fresh
session fed one well-formed `RFID_VALID` frame parses it, yet keeps the
whole frame buffered; feeding a second, well-formed `RFID_VALUE` frame
then raises `InvalidPayloadLengthError` (the stale buffer is parsed) and
dispatches nothing — every frame after the first fails, contradicting the
documented purpose of `io_bytes_received` and the `cb_*` handlers. -/
theorem completed_frame_buffer_retained :
    (io_bytes_received initSt [0x8A, 0x08, 0x01, 0x51]).2 = none ∧
    (io_bytes_received initSt [0x8A, 0x08, 0x01, 0x51]).1.parser_state = .IDLE ∧
    (io_bytes_received initSt [0x8A, 0x08, 0x01, 0x51]).1.rx_buff =
      [0x8A, 0x08, 0x01, 0x51] ∧
    (io_bytes_received (io_bytes_received initSt [0x8A, 0x08, 0x01, 0x51]).1
        [0x8A, 0x84, 0xDE, 0xAD, 0xBE, 0xEF, 0x51]).2 =
      some .invalidPayloadLength ∧
    (io_bytes_received (io_bytes_received initSt [0x8A, 0x08, 0x01, 0x51]).1
        [0x8A, 0x84, 0xDE, 0xAD, 0xBE, 0xEF, 0x51]).1.calls = [] := by
  decide

/-- C3, counterexample: after feeding `0x8A 0x99 0x51` to a fresh session
the parser is still mid-frame (in `READING_FOOTER`, one byte pending), so
the third byte `0x51` was NOT treated as the expected stop byte; and a
subsequent well-formed `RFID_VALUE` frame is not parsed: its start byte
completes the pending attempt, `InvalidFrameEndError` is raised, and no
handler is ever dispatched. -/
theorem unknown_type_resync_breaks_next_frame :
    (io_bytes_received initSt [0x8A, 0x99, 0x51]).1.parser_state =
      .READING_FOOTER ∧
    (io_bytes_received (io_bytes_received initSt [0x8A, 0x99, 0x51]).1
        [0x8A, 0x84, 0xDE, 0xAD, 0xBE, 0xEF, 0x51]).2 =
      some .invalidFrameEnd ∧
    (io_bytes_received (io_bytes_received initSt [0x8A, 0x99, 0x51]).1
        [0x8A, 0x84, 0xDE, 0xAD, 0xBE, 0xEF, 0x51]).1.calls = [] := by
  decide

/-- C3 (amended): feeding `0x8A 0x99 0x51` (unknown type code `0x99`)
causes no handler dispatch and logs the unknown type; but the byte
immediately following the unknown type byte is swallowed as a data-phase
transition trigger without being buffered, and it is the SECOND byte after
the type byte that is stored as the expected stop byte: after the three
bytes the parser sits in `READING_FOOTER` with one byte pending and
`0x8A 0x99` buffered, and one further byte completes the attempt, which
raises `UnknownMessageTypeError`; the parser is NOT able to correctly
parse a subsequent well-formed frame fed after those three bytes. -/
theorem unknown_type_resync_behavior :
    (io_bytes_received initSt [0x8A, 0x99, 0x51]).2 = none ∧
    (io_bytes_received initSt [0x8A, 0x99, 0x51]).1.calls = [] ∧
    (io_bytes_received initSt [0x8A, 0x99, 0x51]).1.warns = [0x99] ∧
    (io_bytes_received initSt [0x8A, 0x99, 0x51]).1.rx_buff = [0x8A, 0x99] ∧
    (io_bytes_received initSt [0x8A, 0x99, 0x51]).1.bytes_left = 1 ∧
    (io_bytes_received initSt [0x8A, 0x99, 0x51]).1.parser_state =
      .READING_FOOTER ∧
    (io_bytes_received initSt [0x8A, 0x99, 0x51, 0x51]).2 =
      some .unknownMessageType := by
  decide

/-- C6: on a fresh session, the byte sequence
`0xFF 0xFF 0x8A 0x84 0xDE 0xAD 0xBE 0xEF 0x51` triggers exactly one
handler invocation, `cb_rfid_received("deadbeef")`, raises nothing, and
the two leading noise bytes are discarded without being buffered (only
the frame itself ends up in the accumulation buffer). -/
theorem noise_then_rfid_scenario :
    (io_bytes_received initSt
        [0xFF, 0xFF, 0x8A, 0x84, 0xDE, 0xAD, 0xBE, 0xEF, 0x51]).2 = none ∧
    (io_bytes_received initSt
        [0xFF, 0xFF, 0x8A, 0x84, 0xDE, 0xAD, 0xBE, 0xEF, 0x51]).1.calls =
      [.rfid "deadbeef".toList] ∧
    (io_bytes_received initSt
        [0xFF, 0xFF, 0x8A, 0x84, 0xDE, 0xAD, 0xBE, 0xEF, 0x51]).1.rx_buff =
      [0x8A, 0x84, 0xDE, 0xAD, 0xBE, 0xEF, 0x51] := by
  decide

/-- C10: there is a name accepted by the alphanumeric check (the one-letter
name `"é"`, alphanumeric for Python's Unicode-aware `str.isalnum`) on
which `set_tool_name` raises an error that is neither `InvalidDataError`
nor any `ScreenError` at all: the `UnicodeEncodeError` coming from
`.encode("ascii")`.  The alphanumeric precondition alone therefore does
not guarantee the documented InvalidData-or-success behaviour. -/
theorem alnum_name_escapes_screen_errors :
    ∃ name : List Char, pyIsAlnum name = true ∧
      ∃ e : PyError, (set_tool_name initSt true name).2 = some e ∧
        e ≠ .invalidData ∧ e.isScreenError = false := by
  refine ⟨['é'], by decide, .unicodeEncodeError, by decide, by decide, by decide⟩

/-- C4: for every device-originated message type (TOOL_ID, TOOL_NAME,
FOLLOW_MODE_ENABLE, RFID_VALID) and every payload of that type's
registered length, encoding succeeds with the frame
`START ++ code ++ payload ++ STOP`, and decoding that frame raises no
error and resolves exactly the original type and payload (the session is
untouched, these types not being peripheral-originated). -/
theorem encode_decode_roundtrip (t : MessageType) (payload : List Nat) (st : St)
    (ht : t = .TOOL_ID ∨ t = .TOOL_NAME ∨ t = .FOLLOW_MODE_ENABLE ∨
      t = .RFID_VALID)
    (hlen : payload.length = t.data_len) :
    format_uart t payload = .ok ([START_BYTE, t.code] ++ payload ++ [STOP_BYTE]) ∧
    parse_frame st ([START_BYTE, t.code] ++ payload ++ [STOP_BYTE]) =
      (st, .ok (t, payload)) := by
  have hmax : t.data_len ≤ UART_MAX_DATA_LENGTH := by
    rcases ht with rfl | rfl | rfl | rfl <;> decide
  have h1 : ¬ (([START_BYTE, t.code] ++ payload ++ [STOP_BYTE]).length <
      UART_MIN_FRAME_LENGTH) := by
    simp only [List.length_append, List.length_cons, List.length_nil,
      UART_MIN_FRAME_LENGTH, UART_HEADER_LENGTH, UART_FOOTER_LENGTH]
    omega
  have h2 : ([START_BYTE, t.code] ++ payload ++ [STOP_BYTE]).headD 0 =
      START_BYTE := rfl
  have h3 : ([START_BYTE, t.code] ++ payload ++ [STOP_BYTE]).getLastD 0 =
      STOP_BYTE := by
    show ((START_BYTE :: t.code :: payload) ++ [STOP_BYTE]).getLastD 0 =
      STOP_BYTE
    generalize START_BYTE :: t.code :: payload = l
    simp
  have h4 : MessageType.from_bytes
      (([START_BYTE, t.code] ++ payload ++ [STOP_BYTE]).getD 1 0) = some t := by
    rcases ht with rfl | rfl | rfl | rfl <;> rfl
  have h5 : (([START_BYTE, t.code] ++ payload ++ [STOP_BYTE]).drop
      UART_HEADER_LENGTH).dropLast = payload := by
    show (payload ++ [STOP_BYTE]).dropLast = payload
    simp
  have h6 : dispatch_callback st t payload = (st, none) := by
    rcases ht with rfl | rfl | rfl | rfl <;> rfl
  constructor
  · unfold format_uart
    rw [if_neg (by omega), if_neg (by omega)]
  · unfold parse_frame
    rw [if_neg h1, if_neg (not_ne_iff.mpr h2), if_neg (not_ne_iff.mpr h3)]
    simp only [h4, h5]
    rw [if_neg (by omega)]
    simp only [h6]

/-- C4, witness at `TOOL_ID` with payload `[0x05]` (the spec's
Scenario A frame `[0x8A, 0x01, 0x05, 0x51]`). -/
theorem encode_decode_roundtrip_witness :
    format_uart .TOOL_ID [0x05] = .ok [0x8A, 0x01, 0x05, 0x51] ∧
    parse_frame initSt [0x8A, 0x01, 0x05, 0x51] =
      (initSt, .ok (.TOOL_ID, [0x05])) :=
  encode_decode_roundtrip .TOOL_ID [0x05] initSt (by decide) (by decide)

/-- C5: `_parse_frame` rejects structurally broken frames with their
specific errors, checked in this order: total length below 3 fails
`IncompleteFrameError`; then a wrong first byte fails
`InvalidFrameStartError`; then a wrong last byte fails
`InvalidFrameEndError`; then a second byte without registry entry fails
`UnknownMessageTypeError`; then an interior slice length different from
the resolved type's registered payload length fails
`InvalidPayloadLengthError`. -/
theorem parse_frame_error_cascade (st : St) (frame : List Nat) :
    (frame.length < 3 → (parse_frame st frame).2 = .error .incompleteFrame) ∧
    (3 ≤ frame.length → frame.headD 0 ≠ START_BYTE →
      (parse_frame st frame).2 = .error .invalidFrameStart) ∧
    (3 ≤ frame.length → frame.headD 0 = START_BYTE →
      frame.getLastD 0 ≠ STOP_BYTE →
      (parse_frame st frame).2 = .error .invalidFrameEnd) ∧
    (3 ≤ frame.length → frame.headD 0 = START_BYTE →
      frame.getLastD 0 = STOP_BYTE →
      MessageType.from_bytes (frame.getD 1 0) = none →
      (parse_frame st frame).2 = .error .unknownMessageType) ∧
    (∀ t : MessageType, 3 ≤ frame.length → frame.headD 0 = START_BYTE →
      frame.getLastD 0 = STOP_BYTE →
      MessageType.from_bytes (frame.getD 1 0) = some t →
      t.data_len ≠ frame.length - 3 →
      (parse_frame st frame).2 = .error .invalidPayloadLength) := by
  have hmin : UART_MIN_FRAME_LENGTH = 3 := rfl
  have hint : ((frame.drop UART_HEADER_LENGTH).dropLast).length =
      frame.length - 3 := by
    simp only [List.length_dropLast, List.length_drop, UART_HEADER_LENGTH]
    omega
  refine ⟨?_, ?_, ?_, ?_, ?_⟩
  · intro h
    unfold parse_frame
    rw [if_pos (by omega)]
  · intro h hs
    unfold parse_frame
    rw [if_neg (by omega), if_pos hs]
  · intro h hs he
    unfold parse_frame
    rw [if_neg (by omega), if_neg (not_ne_iff.mpr hs), if_pos he]
  · intro h hs he hu
    unfold parse_frame
    rw [if_neg (by omega), if_neg (not_ne_iff.mpr hs), if_neg (not_ne_iff.mpr he)]
    simp only [hu]
  · intro t h hs he hu hl
    unfold parse_frame
    rw [if_neg (by omega), if_neg (not_ne_iff.mpr hs), if_neg (not_ne_iff.mpr he)]
    simp only [hu]
    rw [if_pos (by rw [hint]; exact hl)]

/-- C5, witness: each of the five rejection cases at a concrete frame. -/
theorem parse_frame_error_cascade_witness :
    (parse_frame initSt [0x8A]).2 = .error .incompleteFrame ∧
    (parse_frame initSt [0x00, 0x01, 0x51]).2 = .error .invalidFrameStart ∧
    (parse_frame initSt [0x8A, 0x01, 0x00]).2 = .error .invalidFrameEnd ∧
    (parse_frame initSt [0x8A, 0x33, 0x51]).2 = .error .unknownMessageType ∧
    (parse_frame initSt [0x8A, 0x01, 0x51]).2 = .error .invalidPayloadLength :=
  ⟨(parse_frame_error_cascade initSt [0x8A]).1 (by decide),
   (parse_frame_error_cascade initSt [0x00, 0x01, 0x51]).2.1
     (by decide) (by decide),
   (parse_frame_error_cascade initSt [0x8A, 0x01, 0x00]).2.2.1
     (by decide) (by decide) (by decide),
   (parse_frame_error_cascade initSt [0x8A, 0x33, 0x51]).2.2.2.1
     (by decide) (by decide) (by decide) (by decide),
   (parse_frame_error_cascade initSt [0x8A, 0x01, 0x51]).2.2.2.2 .TOOL_ID
     (by decide) (by decide) (by decide) (by decide) (by decide)⟩

/-- `str.ljust` pads up to the width and never truncates. -/
theorem pyLjust_length (s : List Char) (w : Nat) (c : Char) :
    (pyLjust s w c).length = max s.length w := by
  unfold pyLjust
  split
  · omega
  · simp only [List.length_append, List.length_replicate]
    omega

/-- C7, counterexample: an alphanumeric name of 17 characters is NOT
truncated to a 16-byte payload — `str.ljust(16)` leaves it at 17
characters and `_format_uart` raises `PayloadTooLongError`, so nothing is
transmitted. -/
theorem long_name_not_truncated :
    pyIsAlnum "abcdefghijklmnopq".toList = true ∧
    "abcdefghijklmnopq".toList.length = 17 ∧
    (set_tool_name initSt true "abcdefghijklmnopq".toList).2 =
      some (.payloadTooLong 17) ∧
    (set_tool_name initSt true "abcdefghijklmnopq".toList).1.sent = [] := by
  decide

/-- C7 (amended): `set_tool_name` fails `InvalidDataError` exactly when
the name is not alphanumeric; an alphanumeric ASCII name of length at
most 16 is right-padded with spaces to exactly 16 ASCII bytes and
transmitted; but an alphanumeric ASCII name longer than 16 characters is
NOT truncated: it raises `PayloadTooLongError` instead of yielding a
16-byte payload. -/
theorem set_tool_name_behavior (st : St) (name : List Char) :
    (pyIsAlnum name = false →
      set_tool_name st true name = (st, some .invalidData)) ∧
    (pyIsAlnum name = true →
      (set_tool_name st true name).2 ≠ some .invalidData) ∧
    (pyIsAlnum name = true → name.length ≤ 16 → (∀ c ∈ name, c.toNat < 128) →
      (set_tool_name st true name).2 = none ∧
      (set_tool_name st true name).1.sent = st.sent ++
        [[START_BYTE, MessageType.TOOL_NAME.code] ++
          (name ++ List.replicate (16 - name.length) ' ').map Char.toNat ++
          [STOP_BYTE]] ∧
      ((name ++ List.replicate (16 - name.length) ' ').map Char.toNat).length
        = 16) ∧
    (pyIsAlnum name = true → 16 < name.length → (∀ c ∈ name, c.toNat < 128) →
      (set_tool_name st true name).2 = some (.payloadTooLong name.length)) := by
  have hpad : name.length ≤ 16 →
      pyLjust name 16 ' ' = name ++ List.replicate (16 - name.length) ' ' := by
    intro hle
    unfold pyLjust
    split
    · rename_i hge
      have h16 : name.length = 16 := le_antisymm hle hge
      rw [h16]
      simp
    · rfl
  refine ⟨?_, ?_, ?_, ?_⟩
  · intro h
    unfold set_tool_name
    rw [if_pos (by simp [h])]
  · intro ha
    unfold set_tool_name
    rw [if_neg (by simp [ha])]
    split
    · rename_i e he
      have he' : e = .unicodeEncodeError := by
        unfold encodeAscii at he
        split at he <;> simp_all
      simp [he']
    · rename_i data he
      have hdlen : data.length = max name.length 16 := by
        unfold encodeAscii at he
        split at he
        · have hh : (pyLjust name 16 ' ').map Char.toNat = data := by
            simpa using he
          rw [← hh]
          simp [pyLjust_length]
        · exact absurd he (by simp)
      split
      · rename_i e2 hf
        have he2 : e2 ≠ .invalidData := by
          unfold format_uart at hf
          split at hf
          · injection hf with hf2
            subst hf2
            simp
          · split at hf
            · rename_i hgt hne
              exfalso
              simp only [UART_MAX_DATA_LENGTH] at hgt
              simp only [MessageType.data_len] at hne
              omega
            · exact absurd hf (by simp)
        simp [he2]
      · rename_i frame hf
        simp [send_frame]
  · intro ha hle hascii
    have h1 : name.all (fun c => c.toNat < 128) = true := by
      simp only [List.all_eq_true, decide_eq_true_eq]
      exact hascii
    have h2 : (List.replicate (16 - name.length) ' ').all
        (fun c => c.toNat < 128) = true := by
      simp only [List.all_eq_true, List.mem_replicate, decide_eq_true_eq]
      rintro c ⟨-, rfl⟩
      decide
    have hall : (name ++ List.replicate (16 - name.length) ' ').all
        (fun c => c.toNat < 128) = true := by
      simp [List.all_append, h1, h2]
    have henc : encodeAscii (pyLjust name 16 ' ') =
        .ok ((name ++ List.replicate (16 - name.length) ' ').map Char.toNat) := by
      rw [hpad hle]
      unfold encodeAscii
      rw [if_pos hall]
    have hplen : ((name ++ List.replicate (16 - name.length) ' ').map
        Char.toNat).length = 16 := by
      simp only [List.length_map, List.length_append, List.length_replicate]
      omega
    have hsum : name.length + (16 - name.length) = 16 := by omega
    refine ⟨?_, ?_, hplen⟩ <;>
    · unfold set_tool_name
      rw [if_neg (by simp [ha])]
      simp only [henc]
      simp [format_uart, send_frame, hplen, hsum, UART_MAX_DATA_LENGTH,
        MessageType.data_len]
  · intro ha hgt hascii
    have hname : pyLjust name 16 ' ' = name := by
      unfold pyLjust
      rw [if_pos (by omega)]
    have henc2 : encodeAscii name = .ok (name.map Char.toNat) := by
      unfold encodeAscii
      rw [if_pos (by
        simp only [List.all_eq_true, decide_eq_true_eq]
        exact hascii)]
    unfold set_tool_name
    rw [if_neg (by simp [ha]), hname]
    simp only [henc2]
    simp [format_uart, UART_MAX_DATA_LENGTH, List.length_map, hgt]

/-- C7, witness for `set_tool_name_behavior` at `"marteau"`: the encoded
payload is `"marteau"` followed by 9 spaces, 16 ASCII bytes in all. -/
theorem set_tool_name_behavior_witness :
    (set_tool_name initSt true "marteau".toList).2 = none ∧
    (set_tool_name initSt true "marteau".toList).1.sent = initSt.sent ++
      [[START_BYTE, MessageType.TOOL_NAME.code] ++
        ("marteau".toList ++
          List.replicate (16 - "marteau".toList.length) ' ').map Char.toNat ++
        [STOP_BYTE]] ∧
    (("marteau".toList ++
        List.replicate (16 - "marteau".toList.length) ' ').map
      Char.toNat).length = 16 :=
  (set_tool_name_behavior initSt "marteau".toList).2.2.1
    (by decide) (by decide) (by decide)

/-- C8: `set_tool_id` raises `InvalidDataError` exactly for ids outside
the exclusive interval `0 < id < MAX_TOOL_ID = 7` (so ids 0 and 7 fail),
and otherwise — when the transmit capability reports success — raises
nothing and transmits the frame `[0x8A, 0x01, id, 0x51]`. -/
theorem set_tool_id_boundary (st : St) (tool : Int) :
    (¬ (0 < tool ∧ tool < MAX_TOOL_ID) →
      set_tool_id st true tool = (st, some .invalidData)) ∧
    (0 < tool → tool < MAX_TOOL_ID →
      (set_tool_id st true tool).2 = none ∧
      (set_tool_id st true tool).1.sent =
        st.sent ++ [[START_BYTE, MessageType.TOOL_ID.code, tool.toNat,
          STOP_BYTE]]) := by
  constructor
  · intro h
    unfold set_tool_id
    rw [if_pos h]
  · intro h1 h2
    unfold set_tool_id
    rw [if_neg (not_not_intro ⟨h1, h2⟩)]
    exact ⟨rfl, rfl⟩

/-- C8, witness: ids 0 and 7 fail `InvalidDataError`, id 3 succeeds. -/
theorem set_tool_id_boundary_witness :
    set_tool_id initSt true 0 = (initSt, some .invalidData) ∧
    set_tool_id initSt true 7 = (initSt, some .invalidData) ∧
    (set_tool_id initSt true 3).2 = none :=
  ⟨(set_tool_id_boundary initSt 0).1 (by decide),
   (set_tool_id_boundary initSt 7).1 (by decide),
   ((set_tool_id_boundary initSt 3).2 (by decide) (by decide)).1⟩

/-- C9: every outbound command (`set_tool_id`, `set_tool_name`,
`follow_mode_enable`, `is_rfid_valid`), whether it succeeds or raises,
leaves the parser session's fields — `_rx_buff`, `_bytes_left` and
`_parser_state` — exactly as they were before the call. -/
theorem outbound_commands_preserve_session (st : St) (sendOk : Bool)
    (tool : Int) (name : List Char) (enabled valid : Bool) :
    ((set_tool_id st sendOk tool).1.rx_buff = st.rx_buff ∧
     (set_tool_id st sendOk tool).1.bytes_left = st.bytes_left ∧
     (set_tool_id st sendOk tool).1.parser_state = st.parser_state) ∧
    ((set_tool_name st sendOk name).1.rx_buff = st.rx_buff ∧
     (set_tool_name st sendOk name).1.bytes_left = st.bytes_left ∧
     (set_tool_name st sendOk name).1.parser_state = st.parser_state) ∧
    ((follow_mode_enable st sendOk enabled).1.rx_buff = st.rx_buff ∧
     (follow_mode_enable st sendOk enabled).1.bytes_left = st.bytes_left ∧
     (follow_mode_enable st sendOk enabled).1.parser_state = st.parser_state) ∧
    ((is_rfid_valid st sendOk valid).1.rx_buff = st.rx_buff ∧
     (is_rfid_valid st sendOk valid).1.bytes_left = st.bytes_left ∧
     (is_rfid_valid st sendOk valid).1.parser_state = st.parser_state) := by
  simp only [set_tool_id, set_tool_name, follow_mode_enable, is_rfid_valid,
    send_frame, format_uart]
  repeat' first
    | rfl
    | (constructor)
    | split

end Uart
